import Mathlib

/-!
Shallow embedding of the RDHEM heating-technology cost / payback model
(`src/rdhem_primary_energy_costs_v5.py`).

The computational core of the source consists of three functions:
`run_model` (per-technology fuel demand, unit cost, annual cost, CO₂ and
capex), `format_payback_years` (renders a fractional number of years as a
"Yy Mm" string) and `apply_payback_and_grant` (baseline-relative savings,
extra capex, grant allocation, effective extra capex and the payback
label).  All other code in the file is Streamlit UI.

Floats are modelled as rationals (ℚ).  The Python builtin `int(x)`
truncates toward zero and the builtin `round(x)` rounds half to even (the
behaviour of the source at every reachable call); both are embedded
explicitly (`pytrunc`, `pyround`).  The session-state dictionaries
(`efficiencies`, `co2_factors`, `install_costs`) are keyed by the fixed
`technologies` list and are modelled as a list of `TechProfile` records
iterated in catalogue order, exactly as `run_model` iterates the
`technologies` list.  Ambient Streamlit globals (archetype heat demand,
prices, baseline choice, grant widgets) become explicit parameters.
`apply_payback_and_grant` selects the first row matching the baseline via
`df[df["Technology"] == baseline].iloc[0]`, which raises when no row
matches; this fallible lookup is modelled with `Option`.
-/

/-- Fuel type of a technology, from the `fuel_type` dict. -/
inductive FuelType where
  | electric
  | gas
deriving DecidableEq, Repr

/-- One catalogue entry: the per-technology values of the
`fuel_type`, `efficiencies`, `co2_factors` and `install_costs` dicts. -/
structure TechProfile where
  id : String
  fuelType : FuelType
  efficiency : ℚ
  co2Factor : ℚ
  installCost : ℚ
deriving DecidableEq, Repr

/-- Fuel price inputs: the `elec_price`, `gas_price` and `gas_sc`
sidebar widgets. -/
structure Pricing where
  elecPrice : ℚ
  gasPrice : ℚ
  gasStandingCharge : ℚ
deriving DecidableEq, Repr

/-- The grant type radio button: "Flat amount (£)" or
"Percentage of extra capex". -/
inductive GrantType where
  | flatAmount
  | percentOfExtraCapex
deriving DecidableEq, Repr

/-- The grant sidebar widgets: `enable_grant`, `grant_tech`,
`grant_type`, `grant_value`. -/
structure GrantConfig where
  enabled : Bool
  tech : String
  gtype : GrantType
  value : ℚ
deriving DecidableEq, Repr

/-- One row of the dataframe produced by `run_model`. -/
structure ModelRow where
  tech : String
  fuelType : FuelType
  efficiency : ℚ
  fuelDemand : ℚ
  unitCost : ℚ
  standingCharge : ℚ
  annualCost : ℚ
  co2 : ℚ
  capex : ℚ
deriving DecidableEq, Repr

/-- One row of the dataframe produced by `apply_payback_and_grant`:
the `run_model` columns plus savings, extra capex, grant, effective
extra capex and the payback label. -/
structure ResultRow where
  tech : String
  fuelType : FuelType
  efficiency : ℚ
  fuelDemand : ℚ
  unitCost : ℚ
  standingCharge : ℚ
  annualCost : ℚ
  co2 : ℚ
  capex : ℚ
  savings : ℚ
  extraCapex : ℚ
  grantAmount : ℚ
  effExtraCapex : ℚ
  payback : String
deriving DecidableEq, Repr

/-- Python `int(x)` on a real value: truncation toward zero. -/
def pytrunc (q : ℚ) : ℤ :=
  if 0 ≤ q then ⌊q⌋ else ⌈q⌉

/-- Python `round(x)` on a real value: round half to even. -/
def pyround (q : ℚ) : ℤ :=
  if q - ⌊q⌋ < 1/2 then ⌊q⌋
  else if 1/2 < q - ⌊q⌋ then ⌊q⌋ + 1
  else if ⌊q⌋ % 2 = 0 then ⌊q⌋ else ⌊q⌋ + 1

/-- `format_payback_years` (source lines 249–255): `y = int(years)`,
`m = int(round((years - y) * 12))`, the `m == 12` carry, and the
f-string `f"{y}y {m}m"`. -/
def format_payback_years (years : ℚ) : String :=
  let y := pytrunc years
  let m := pyround ((years - (y : ℚ)) * 12)
  if m = 12 then
    toString (y + 1) ++ "y " ++ toString (0 : ℤ) ++ "m"
  else
    toString y ++ "y " ++ toString m ++ "m"

/-- The per-row body of `run_model` (source lines 221–247): effective
efficiency, fuel demand, fuel-type-dependent unit cost and standing
charge, annual cost, CO₂ and capex. -/
def runModelRow (hd : ℚ) (pr : Pricing) (discount effMult : ℚ)
    (p : TechProfile) : ModelRow :=
  let eff := p.efficiency * effMult
  let fuelDemand := hd / eff
  let unitCost :=
    match p.fuelType with
    | .electric => pr.elecPrice * (1 - discount / 100)
    | .gas => pr.gasPrice
  let standingCharge :=
    match p.fuelType with
    | .electric => 0
    | .gas => pr.gasStandingCharge
  { tech := p.id
    fuelType := p.fuelType
    efficiency := eff
    fuelDemand := fuelDemand
    unitCost := unitCost
    standingCharge := standingCharge
    annualCost := fuelDemand * unitCost / 100 + standingCharge
    co2 := fuelDemand * p.co2Factor
    capex := p.installCost }

/-- `run_model` (source lines 221–247): one row per technology, in
catalogue order. -/
def run_model (catalogue : List TechProfile) (hd : ℚ) (pr : Pricing)
    (discount : ℚ) (effMult : ℚ) : List ModelRow :=
  catalogue.map (runModelRow hd pr discount effMult)

/-- The grant column (source lines 265–271): `0.0` everywhere, except
that when the grant is enabled, the row with `Technology == grant_tech`
and positive extra capex receives `grant_value` (flat) or
`extra * grant_value / 100` (percentage). -/
def grantAmountFor (g : GrantConfig) (tech : String) (extra : ℚ) : ℚ :=
  if g.enabled then
    if tech = g.tech ∧ 0 < extra then
      match g.gtype with
      | .flatAmount => g.value
      | .percentOfExtraCapex => extra * (g.value / 100)
    else 0
  else 0

/-- The row-wise payback classifier `pb` (source lines 275–287). -/
def pb (extra effExtra saving : ℚ) : String :=
  if extra ≤ 0 then "Immediate"
  else if saving ≤ 0 then "No payback"
  else if effExtra ≤ 0 then "Immediate"
  else format_payback_years (effExtra / saving)

/-- Derivation of one output row of `apply_payback_and_grant` from the
baseline row and the row itself: savings, extra capex, grant, clipped
effective extra capex (`.clip(lower=0.0)`) and payback label. -/
def paybackRow (g : GrantConfig) (base r : ModelRow) : ResultRow :=
  let savings := base.annualCost - r.annualCost
  let extra := r.capex - base.capex
  let grant := grantAmountFor g r.tech extra
  let effExtra := max 0 (extra - grant)
  { tech := r.tech
    fuelType := r.fuelType
    efficiency := r.efficiency
    fuelDemand := r.fuelDemand
    unitCost := r.unitCost
    standingCharge := r.standingCharge
    annualCost := r.annualCost
    co2 := r.co2
    capex := r.capex
    savings := savings
    extraCapex := extra
    grantAmount := grant
    effExtraCapex := effExtra
    payback := pb extra effExtra savings }

/-- `apply_payback_and_grant` (source lines 257–290).  The baseline row
is the first row whose `Technology` equals the baseline id
(`df[df["Technology"] == baseline].iloc[0]`, which raises when there is
none — modelled as `Option`). -/
def apply_payback_and_grant (baseline : String) (g : GrantConfig)
    (df : List ModelRow) : Option (List ResultRow) :=
  (df.find? (fun r => r.tech = baseline)).map
    (fun base => df.map (paybackRow g base))

/-- The full evaluation pipeline, as composed at source line 292:
`apply_payback_and_grant(run_model(discount, eff_mult))`. -/
def evaluate (catalogue : List TechProfile) (hd : ℚ) (pr : Pricing)
    (discount effMult : ℚ) (baseline : String) (g : GrantConfig) :
    Option (List ResultRow) :=
  apply_payback_and_grant baseline g (run_model catalogue hd pr discount effMult)

/-- The default technology catalogue (source lines 67–110): the
`technologies` list zipped with the `fuel_type` dict and the default
`efficiencies`, `co2_factors` and `install_costs` dicts. -/
def defaultCatalogue : List TechProfile :=
  [ { id := "LTASHP", fuelType := .electric, efficiency := 286/100,
      co2Factor := 74/1000, installCost := 12000 },
    { id := "HTASHP", fuelType := .electric, efficiency := 273/100,
      co2Factor := 77/1000, installCost := 14000 },
    { id := "LTGSHP", fuelType := .electric, efficiency := 353/100,
      co2Factor := 60/1000, installCost := 20000 },
    { id := "AAHP", fuelType := .electric, efficiency := 204/100,
      co2Factor := 103/1000, installCost := 6800 },
    { id := "Storage Heater", fuelType := .electric, efficiency := 1,
      co2Factor := 222/1000, installCost := 4500 },
    { id := "Electric Boiler", fuelType := .electric, efficiency := 1,
      co2Factor := 211/1000, installCost := 5000 },
    { id := "Infrared Heater", fuelType := .electric, efficiency := 1,
      co2Factor := 211/1000, installCost := 6500 },
    { id := "Gas Condensing Boiler", fuelType := .gas, efficiency := 895/1000,
      co2Factor := 184/1000, installCost := 3500 },
    { id := "Gas Non-Condensing Boiler", fuelType := .gas, efficiency := 6/10,
      co2Factor := 184/1000, installCost := 3000 } ]

/-- A disabled grant (the `enable_grant` checkbox unticked). -/
def noGrant : GrantConfig :=
  { enabled := false, tech := "LTASHP", gtype := .flatAmount, value := 7500 }

/-- The default fuel pricing (slider defaults: 30 p/kWh electricity,
10 p/kWh gas, £300/yr gas standing charge). -/
def pr0 : Pricing := { elecPrice := 30, gasPrice := 10, gasStandingCharge := 300 }

/-- A flat £7500 grant targeted at the LTASHP (the grant widget defaults). -/
def grant7500 : GrantConfig :=
  { enabled := true, tech := "LTASHP", gtype := .flatAmount, value := 7500 }

/-- The LTASHP catalogue entry. -/
def ltashpProfile : TechProfile :=
  { id := "LTASHP", fuelType := .electric, efficiency := 286/100,
    co2Factor := 74/1000, installCost := 12000 }

/-- The Gas Condensing Boiler catalogue entry. -/
def gasBoilerProfile : TechProfile :=
  { id := "Gas Condensing Boiler", fuelType := .gas, efficiency := 895/1000,
    co2Factor := 184/1000, installCost := 3500 }

/-- A two-technology sub-catalogue used to instantiate the universally
quantified theorems at concrete inputs. -/
def smallCat : List TechProfile := [gasBoilerProfile, ltashpProfile]

/-- The gas boiler row of the default scenario (no discount). -/
def baseRow : ModelRow := runModelRow 6400 pr0 0 1 gasBoilerProfile

/-- The LTASHP row of the default scenario (no discount). -/
def ltashpRow : ModelRow := runModelRow 6400 pr0 0 1 ltashpProfile

/-- Decomposition of a successful evaluation: a baseline row was found by
`find?` and the output is the row-wise `paybackRow` image of `run_model`. -/
theorem evaluate_some_elim {c : List TechProfile} {hd : ℚ} {pr : Pricing}
    {d m : ℚ} {b : String} {g : GrantConfig} {out : List ResultRow}
    (h : evaluate c hd pr d m b g = some out) :
    ∃ base, (run_model c hd pr d m).find? (fun r => r.tech = b) = some base ∧
      out = (run_model c hd pr d m).map (paybackRow g base) := by
  unfold evaluate apply_payback_and_grant at h
  obtain ⟨base, hb, hout⟩ := Option.map_eq_some'.mp h
  exact ⟨base, hb, hout.symm⟩

/-- The technology names of the `run_model` rows are the catalogue ids,
in order. -/
theorem run_model_tech_map (c : List TechProfile) (hd : ℚ) (pr : Pricing)
    (d m : ℚ) :
    (run_model c hd pr d m).map ModelRow.tech = c.map TechProfile.id := by
  rw [run_model, List.map_map]
  rfl

/-- Claim C1: for every technology row, the payback label is decided in
priority order on the raw (unfloored) extra capex first: extra capex ≤ 0 gives
"Immediate"; else non-positive savings give "No payback" (even when a grant
fully offsets the extra capex); else zero effective extra capex gives
"Immediate"; else the label is the formatted period
`effExtraCapex / savings`. -/
theorem payback_label_priority
    (c : List TechProfile) (hd : ℚ) (pr : Pricing) (d m : ℚ)
    (b : String) (g : GrantConfig) (out : List ResultRow)
    (hout : evaluate c hd pr d m b g = some out)
    (r : ResultRow) (hr : r ∈ out) :
    r.payback =
      if r.extraCapex ≤ 0 then "Immediate"
      else if r.savings ≤ 0 then "No payback"
      else if r.effExtraCapex ≤ 0 then "Immediate"
      else format_payback_years (r.effExtraCapex / r.savings) := by
  obtain ⟨base, hfind, hmap⟩ := evaluate_some_elim hout
  subst hmap
  obtain ⟨mr, hmr, rfl⟩ := List.mem_map.mp hr
  rfl

/-- Witness for C1: the LTASHP row of a concrete no-grant evaluation with
the gas boiler as baseline. -/
theorem payback_label_priority_witness :
    (paybackRow noGrant baseRow ltashpRow).payback =
      if (paybackRow noGrant baseRow ltashpRow).extraCapex ≤ 0 then
        "Immediate"
      else if (paybackRow noGrant baseRow ltashpRow).savings ≤ 0 then
        "No payback"
      else if (paybackRow noGrant baseRow ltashpRow).effExtraCapex ≤ 0 then
        "Immediate"
      else format_payback_years
        ((paybackRow noGrant baseRow ltashpRow).effExtraCapex /
         (paybackRow noGrant baseRow ltashpRow).savings) :=
  payback_label_priority smallCat 6400 pr0 0 1 "Gas Condensing Boiler" noGrant
    [paybackRow noGrant baseRow baseRow, paybackRow noGrant baseRow ltashpRow]
    rfl _ (List.mem_cons_of_mem _ (List.mem_cons_self _ _))

/-- Claim C2: every `run_model` row satisfies the exact cost formulas: fuel
demand is heat demand over `efficiency * efficiency_multiplier`, the unit cost
is the discounted electricity price (discount fraction = `discount / 100`) for
electric rows and the undiscounted gas price for gas rows, the standing charge
is the gas standing charge exactly for gas rows, and the annual cost is
`fuelDemand * unitCost / 100 + standingCharge`. -/
theorem annual_cost_formula
    (c : List TechProfile) (hd : ℚ) (pr : Pricing) (d m : ℚ)
    (r : ModelRow) (hr : r ∈ run_model c hd pr d m) :
    (∃ p ∈ c, r.tech = p.id ∧ r.fuelDemand = hd / (p.efficiency * m)) ∧
    r.unitCost = (match r.fuelType with
      | .electric => pr.elecPrice * (1 - d / 100)
      | .gas => pr.gasPrice) ∧
    r.standingCharge = (match r.fuelType with
      | .electric => (0 : ℚ)
      | .gas => pr.gasStandingCharge) ∧
    r.annualCost = r.fuelDemand * r.unitCost / 100 + r.standingCharge := by
  obtain ⟨p, hp, rfl⟩ := List.mem_map.mp hr
  refine ⟨⟨p, hp, rfl, rfl⟩, ?_, ?_, rfl⟩ <;> cases hft : p.fuelType <;>
    simp [runModelRow, hft]

/-- Witness for C2: the gas boiler row of the default scenario with a 10%
discount. -/
theorem annual_cost_formula_witness :
    (runModelRow 6400 pr0 10 1 gasBoilerProfile).annualCost =
      (runModelRow 6400 pr0 10 1 gasBoilerProfile).fuelDemand *
        (runModelRow 6400 pr0 10 1 gasBoilerProfile).unitCost / 100 +
      (runModelRow 6400 pr0 10 1 gasBoilerProfile).standingCharge :=
  (annual_cost_formula smallCat 6400 pr0 10 1 _ (List.mem_cons_self _ _)).2.2.2

/-- Claim C3: with a grant enabled, the grant amount of each row is the grant
value (flat mode) or `extraCapex * value / 100` (percentage mode) exactly when
the row is the grant target and its extra capex is strictly positive, and zero
for every other row. -/
theorem grant_allocation
    (c : List TechProfile) (hd : ℚ) (pr : Pricing) (d m : ℚ)
    (b : String) (g : GrantConfig) (out : List ResultRow)
    (hg : g.enabled = true)
    (hout : evaluate c hd pr d m b g = some out)
    (r : ResultRow) (hr : r ∈ out) :
    r.grantAmount =
      if r.tech = g.tech ∧ 0 < r.extraCapex then
        match g.gtype with
        | .flatAmount => g.value
        | .percentOfExtraCapex => r.extraCapex * g.value / 100
      else 0 := by
  obtain ⟨base, hfind, hmap⟩ := evaluate_some_elim hout
  subst hmap
  obtain ⟨mr, hmr, rfl⟩ := List.mem_map.mp hr
  show grantAmountFor g mr.tech (mr.capex - base.capex) =
    if mr.tech = g.tech ∧ 0 < mr.capex - base.capex then
      match g.gtype with
      | .flatAmount => g.value
      | .percentOfExtraCapex => (mr.capex - base.capex) * g.value / 100
    else 0
  rw [grantAmountFor, if_pos hg]
  by_cases hcond : mr.tech = g.tech ∧ 0 < mr.capex - base.capex
  · rw [if_pos hcond, if_pos hcond]
    cases g.gtype with
    | flatAmount => rfl
    | percentOfExtraCapex => exact (mul_div_assoc _ _ _).symm
  · rw [if_neg hcond, if_neg hcond]

/-- Witness for C3: the LTASHP row under the default flat £7500 grant. -/
theorem grant_allocation_witness :
    (paybackRow grant7500 baseRow ltashpRow).grantAmount =
      if (paybackRow grant7500 baseRow ltashpRow).tech = grant7500.tech ∧
          0 < (paybackRow grant7500 baseRow ltashpRow).extraCapex then
        match grant7500.gtype with
        | .flatAmount => grant7500.value
        | .percentOfExtraCapex =>
            (paybackRow grant7500 baseRow ltashpRow).extraCapex *
              grant7500.value / 100
      else 0 :=
  grant_allocation smallCat 6400 pr0 0 1 "Gas Condensing Boiler" grant7500
    [paybackRow grant7500 baseRow baseRow, paybackRow grant7500 baseRow ltashpRow]
    rfl rfl _ (List.mem_cons_of_mem _ (List.mem_cons_self _ _))

/-- Claim C5: for every valid input, the result row for the baseline
technology has zero extra capex, zero annual savings, zero grant and the
payback label "Immediate".  (Unique catalogue ids, the invariant of §3 of the
specification, identify the baseline row.) -/
theorem baseline_row_zero
    (c : List TechProfile) (hd : ℚ) (pr : Pricing) (d m : ℚ) (b : String)
    (g : GrantConfig) (out : List ResultRow)
    (hnd : (c.map TechProfile.id).Nodup)
    (hout : evaluate c hd pr d m b g = some out)
    (r : ResultRow) (hr : r ∈ out) (hb : r.tech = b) :
    r.extraCapex = 0 ∧ r.savings = 0 ∧ r.grantAmount = 0 ∧
      r.payback = "Immediate" := by
  obtain ⟨base, hfind, hmap⟩ := evaluate_some_elim hout
  subst hmap
  obtain ⟨mr, hmr, rfl⟩ := List.mem_map.mp hr
  have hbase_mem : base ∈ run_model c hd pr d m :=
    List.mem_of_find?_eq_some hfind
  have hbase_tech : base.tech = b := by
    have h := List.find?_some hfind
    simpa using h
  have hmr_tech : mr.tech = b := hb
  have hnd2 : ((run_model c hd pr d m).map ModelRow.tech).Nodup := by
    rw [run_model_tech_map]; exact hnd
  obtain rfl : mr = base :=
    List.inj_on_of_nodup_map hnd2 hmr hbase_mem (by rw [hmr_tech, hbase_tech])
  refine ⟨sub_self _, sub_self _, ?_, ?_⟩
  · show grantAmountFor g mr.tech (mr.capex - mr.capex) = 0
    simp [grantAmountFor]
  · show pb (mr.capex - mr.capex) _ _ = "Immediate"
    rw [pb, if_pos (by simp)]

/-- Witness for C5: the gas boiler baseline row of a concrete evaluation. -/
theorem baseline_row_zero_witness :
    (paybackRow noGrant baseRow baseRow).extraCapex = 0 ∧
    (paybackRow noGrant baseRow baseRow).savings = 0 ∧
    (paybackRow noGrant baseRow baseRow).grantAmount = 0 ∧
    (paybackRow noGrant baseRow baseRow).payback = "Immediate" :=
  baseline_row_zero smallCat 6400 pr0 0 1 "Gas Condensing Boiler" noGrant
    [paybackRow noGrant baseRow baseRow, paybackRow noGrant baseRow ltashpRow]
    (by decide) rfl _ (List.mem_cons_self _ _) rfl

/-- Claim C6: for every row of every evaluation, the effective extra capex is
`max 0 (extraCapex - grantAmount)`, hence non-negative, while the payback
decision (C1) keeps using the raw extra capex. -/
theorem effective_extra_capex_floor
    (c : List TechProfile) (hd : ℚ) (pr : Pricing) (d m : ℚ) (b : String)
    (g : GrantConfig) (out : List ResultRow)
    (hout : evaluate c hd pr d m b g = some out)
    (r : ResultRow) (hr : r ∈ out) :
    r.effExtraCapex = max 0 (r.extraCapex - r.grantAmount) ∧
      0 ≤ r.effExtraCapex := by
  obtain ⟨base, hfind, hmap⟩ := evaluate_some_elim hout
  subst hmap
  obtain ⟨mr, hmr, rfl⟩ := List.mem_map.mp hr
  exact ⟨rfl, le_max_left 0 _⟩

/-- Witness for C6: the LTASHP row of a concrete evaluation. -/
theorem effective_extra_capex_floor_witness :
    (paybackRow noGrant baseRow ltashpRow).effExtraCapex =
      max 0 ((paybackRow noGrant baseRow ltashpRow).extraCapex -
        (paybackRow noGrant baseRow ltashpRow).grantAmount) ∧
    0 ≤ (paybackRow noGrant baseRow ltashpRow).effExtraCapex :=
  effective_extra_capex_floor smallCat 6400 pr0 0 1 "Gas Condensing Boiler"
    noGrant
    [paybackRow noGrant baseRow baseRow, paybackRow noGrant baseRow ltashpRow]
    rfl _ (List.mem_cons_of_mem _ (List.mem_cons_self _ _))

/-- Claim C8: between two evaluations that differ only in the discount, with
the second discount strictly larger, every electric technology row has a
strictly smaller annual cost under the larger discount and every gas
technology row has an identical annual cost.  Positive heat demand, a positive
electricity price and a positive effective efficiency (the §3 invariant) are
assumed. -/
theorem discount_monotonicity
    (c : List TechProfile) (hd : ℚ) (pr : Pricing) (d1 d2 m : ℚ)
    (hhd : 0 < hd) (hep : 0 < pr.elecPrice) (hdd : d1 < d2)
    (p : TechProfile) (hp : p ∈ c) (heff : 0 < p.efficiency * m) :
    runModelRow hd pr d2 m p ∈ run_model c hd pr d2 m ∧
    runModelRow hd pr d1 m p ∈ run_model c hd pr d1 m ∧
    (p.fuelType = .electric →
      (runModelRow hd pr d2 m p).annualCost <
        (runModelRow hd pr d1 m p).annualCost) ∧
    (p.fuelType = .gas →
      (runModelRow hd pr d2 m p).annualCost =
        (runModelRow hd pr d1 m p).annualCost) := by
  refine ⟨List.mem_map_of_mem _ hp, List.mem_map_of_mem _ hp, ?_, ?_⟩
  · intro hel
    have hF : 0 < hd / (p.efficiency * m) := div_pos hhd heff
    have hkey : 0 < hd / (p.efficiency * m) * pr.elecPrice * (d2 - d1) / 10000 :=
      div_pos (mul_pos (mul_pos hF hep) (by linarith)) (by norm_num)
    simp only [runModelRow, hel]
    nlinarith [hkey]
  · intro hgas
    simp only [runModelRow, hgas]

/-- Witness for C8: the LTASHP annual cost falls when the discount rises
from 0% to 10%. -/
theorem discount_monotonicity_witness :
    (runModelRow 6400 pr0 10 1 ltashpProfile).annualCost <
      (runModelRow 6400 pr0 0 1 ltashpProfile).annualCost :=
  (discount_monotonicity smallCat 6400 pr0 0 10 1 (by norm_num)
      (by norm_num [pr0]) (by norm_num) ltashpProfile
      (List.mem_cons_of_mem _ (List.mem_cons_self _ _))
      (by norm_num [ltashpProfile])).2.2.1 rfl

/-- A second pricing input, used to instantiate independence theorems. -/
def pr1 : Pricing := { elecPrice := 45, gasPrice := 12, gasStandingCharge := 250 }

/-- Claim C10: fuel demand and CO₂ are identical across two evaluations that
differ only in prices, standing charges, discount or grant settings: both
columns depend only on heat demand, efficiency, the efficiency multiplier and
the CO₂ factor. -/
theorem price_independence
    (c : List TechProfile) (hd m : ℚ) (pr1 pr2 : Pricing) (d1 d2 : ℚ)
    (b : String) (g1 g2 : GrantConfig) (out1 out2 : List ResultRow)
    (h1 : evaluate c hd pr1 d1 m b g1 = some out1)
    (h2 : evaluate c hd pr2 d2 m b g2 = some out2) :
    out1.map ResultRow.fuelDemand = out2.map ResultRow.fuelDemand ∧
    out1.map ResultRow.co2 = out2.map ResultRow.co2 := by
  obtain ⟨base1, hf1, hm1⟩ := evaluate_some_elim h1
  obtain ⟨base2, hf2, hm2⟩ := evaluate_some_elim h2
  subst hm1
  subst hm2
  constructor <;>
    · simp only [run_model, List.map_map]
      rfl

/-- Witness for C10: fuel demand agrees between the default-price no-grant
evaluation and an evaluation with different prices, a 20% discount and a
grant. -/
theorem price_independence_witness :
    ([paybackRow noGrant baseRow baseRow,
      paybackRow noGrant baseRow ltashpRow].map ResultRow.fuelDemand) =
    ([paybackRow grant7500 (runModelRow 6400 pr1 20 1 gasBoilerProfile)
        (runModelRow 6400 pr1 20 1 gasBoilerProfile),
      paybackRow grant7500 (runModelRow 6400 pr1 20 1 gasBoilerProfile)
        (runModelRow 6400 pr1 20 1 ltashpProfile)].map ResultRow.fuelDemand) :=
  (price_independence smallCat 6400 1 pr0 pr1 0 20 "Gas Condensing Boiler"
    noGrant grant7500 _ _ rfl rfl).1

/-- Counterexample for C4: the code performs no validation.  With efficiency
multiplier −1 every effective efficiency is negative (the claim demands an
`InvalidInputError`) and with a grant target absent from the catalogue (the
claim demands a `NotFoundError`), evaluation nevertheless succeeds, producing
a full table with negative fuel demands and a zero grant everywhere. -/
theorem no_validation_counterexample :
    ∃ out, evaluate defaultCatalogue 6400 pr0 10 (-1) "Gas Condensing Boiler"
        { enabled := true, tech := "Absent Technology", gtype := .flatAmount,
          value := 7500 } = some out ∧
      (∃ r ∈ out, r.efficiency < 0 ∧ r.fuelDemand < 0) ∧
      ∀ r ∈ out, r.grantAmount = 0 := by
  refine ⟨_, rfl,
    ⟨paybackRow
        { enabled := true, tech := "Absent Technology", gtype := .flatAmount,
          value := 7500 }
        (runModelRow 6400 pr0 10 (-1) gasBoilerProfile)
        (runModelRow 6400 pr0 10 (-1) ltashpProfile),
      List.mem_map_of_mem _ (List.mem_map_of_mem _
        (List.mem_cons_self _ _)), ?_, ?_⟩, ?_⟩
  · norm_num [paybackRow, runModelRow, ltashpProfile]
  · norm_num [paybackRow, runModelRow, ltashpProfile, pr0]
  · intro r hr
    obtain ⟨mr, hmr, rfl⟩ := List.mem_map.mp hr
    obtain ⟨p, hp, rfl⟩ := List.mem_map.mp hmr
    simp only [paybackRow, runModelRow]
    rw [grantAmountFor, if_pos rfl, if_neg]
    intro hcon
    have hne : p.id ≠ "Absent Technology" := by fin_cases hp <;> decide
    exact hne hcon.1

/-- Amended C4: the code performs no input validation and raises neither
`InvalidInputError` nor `NotFoundError`.  Evaluation succeeds exactly when the
baseline id resolves in the catalogue, whatever the efficiencies, prices or
grant values; `run_model` always computes one row per technology first (an
unknown baseline aborts only the later baseline lookup of
`apply_payback_and_grant`); and an unknown grant target id silently yields a
zero grant on every row instead of failing. -/
theorem no_validation_amended
    (c : List TechProfile) (hd : ℚ) (pr : Pricing) (d m : ℚ) (b : String)
    (g : GrantConfig) :
    ((evaluate c hd pr d m b g).isSome = true ↔ ∃ p ∈ c, p.id = b) ∧
    (run_model c hd pr d m).length = c.length ∧
    ((∀ p ∈ c, p.id ≠ g.tech) → ∀ out, evaluate c hd pr d m b g = some out →
      ∀ r ∈ out, r.grantAmount = 0) := by
  refine ⟨?_, by simp [run_model], ?_⟩
  · rw [evaluate, apply_payback_and_grant, Option.isSome_map',
      List.find?_isSome]
    constructor
    · rintro ⟨r, hr, hrb⟩
      obtain ⟨p, hp, rfl⟩ := List.mem_map.mp hr
      exact ⟨p, hp, by simpa using hrb⟩
    · rintro ⟨p, hp, hpb⟩
      exact ⟨runModelRow hd pr d m p, List.mem_map_of_mem _ hp,
        by simpa using hpb⟩
  · intro hids out hout r hr
    obtain ⟨base, hfind, hmap⟩ := evaluate_some_elim hout
    subst hmap
    obtain ⟨mr, hmr, rfl⟩ := List.mem_map.mp hr
    obtain ⟨p, hp, rfl⟩ := List.mem_map.mp hmr
    simp only [paybackRow, runModelRow]
    rw [grantAmountFor]
    by_cases hen : g.enabled = true
    · rw [if_pos hen, if_neg]
      intro hcon
      exact hids p hp hcon.1
    · rw [if_neg hen]

/-- Witness for C4 (amended): a concrete evaluation whose baseline id
resolves succeeds. -/
theorem no_validation_amended_witness :
    (evaluate smallCat 6400 pr0 0 1 "LTASHP" noGrant).isSome = true :=
  (no_validation_amended smallCat 6400 pr0 0 1 "LTASHP" noGrant).1.mpr
    ⟨ltashpProfile, List.mem_cons_of_mem _ (List.mem_cons_self _ _), rfl⟩

/-- Counterexample for C9: at a row reaching the final branch (extra capex
8500, effective extra capex 1000, savings 343.75 — the worked grant
scenario), the payback output is the rendered display string "2y 11m"
produced by the f-string `f"{y}y {m}m"`, not a structured (years, months)
pair: no pair appears anywhere in the output row. -/
theorem payback_output_shape_counterexample :
    pb 8500 1000 (1375/4) = "2y 11m" ∧
    pb 8500 1000 (1375/4) =
      toString (2 : ℤ) ++ "y " ++ toString (11 : ℤ) ++ "m" := by
  constructor <;>
    norm_num [pb, format_payback_years, pytrunc, pyround]
  all_goals decide

/-- Amended C9: for every row reaching the final payback branch, with
`q = effExtraCapex / savings`, the years are `⌊q⌋` (Python `int` truncation,
which agrees with floor since `q > 0`), the months are the Python rounding of
`(q − ⌊q⌋) * 12` (round half to even), a month count of 12 carries into one
more year with zero months, and the output is the formatted string
"{years}y {months}m" rather than a structured pair. -/
theorem payback_formula_amended
    (extra effExtra saving : ℚ)
    (h1 : 0 < extra) (h2 : 0 < saving) (h3 : 0 < effExtra) :
    pb extra effExtra saving =
      toString (if pyround ((effExtra / saving -
              ((⌊effExtra / saving⌋ : ℤ) : ℚ)) * 12) = 12
          then ⌊effExtra / saving⌋ + 1 else ⌊effExtra / saving⌋) ++ "y " ++
      toString (if pyround ((effExtra / saving -
              ((⌊effExtra / saving⌋ : ℤ) : ℚ)) * 12) = 12
          then (0 : ℤ)
          else pyround ((effExtra / saving -
              ((⌊effExtra / saving⌋ : ℤ) : ℚ)) * 12)) ++ "m" := by
  have hq : pytrunc (effExtra / saving) = ⌊effExtra / saving⌋ := by
    rw [pytrunc, if_pos (div_nonneg h3.le h2.le)]
  rw [pb, if_neg (not_le.mpr h1), if_neg (not_le.mpr h2),
    if_neg (not_le.mpr h3)]
  simp only [format_payback_years, hq]
  by_cases hm : pyround ((effExtra / saving -
      ((⌊effExtra / saving⌋ : ℤ) : ℚ)) * 12) = 12
  · rw [if_pos hm, if_pos hm, if_pos hm]
  · rw [if_neg hm, if_neg hm, if_neg hm]

/-- Witness for C9 (amended): extra capex 500, effective extra capex 500,
savings 200 gives payback 2.5 years, formatted "2y 6m". -/
theorem payback_formula_amended_witness :
    pb 500 500 200 = "2y 6m" := by
  have h := payback_formula_amended 500 500 200 (by norm_num) (by norm_num)
    (by norm_num)
  rw [h]
  norm_num [pyround]
  decide

/-- Claim C7: the worked default scenario.  With the default catalogue, heat
demand 6400 kWh, electricity 30 p/kWh, gas 10 p/kWh, gas standing charge
£300/yr, no discount and the gas condensing boiler as baseline: the gas row
has fuel demand ≈ 7150.84 kWh and annual cost ≈ £1015.08; the LTASHP row has
fuel demand ≈ 2237.76 kWh, annual cost ≈ £671.33, extra capex £8500, savings
≈ £343.75 and payback label "24y 9m"; and with a flat £7500 LTASHP grant the
effective extra capex becomes £1000 and the label "2y 11m". -/
theorem default_scenario_values :
    (∃ out, evaluate defaultCatalogue 6400 pr0 0 1 "Gas Condensing Boiler"
        noGrant = some out ∧
      ∃ rg ∈ out, ∃ rl ∈ out,
        rg.tech = "Gas Condensing Boiler" ∧ rl.tech = "LTASHP" ∧
        |rg.fuelDemand - 7150.84| < 1/100 ∧
        |rg.annualCost - 1015.08| < 1/100 ∧
        |rl.fuelDemand - 2237.76| < 1/100 ∧
        |rl.annualCost - 671.33| < 1/100 ∧
        rl.extraCapex = 8500 ∧
        |rl.savings - 343.75| < 1/100 ∧
        rl.payback = "24y 9m") ∧
    (∃ out, evaluate defaultCatalogue 6400 pr0 0 1 "Gas Condensing Boiler"
        grant7500 = some out ∧
      ∃ rl ∈ out, rl.tech = "LTASHP" ∧
        rl.grantAmount = 7500 ∧ rl.effExtraCapex = 1000 ∧
        |rl.savings - 343.75| < 1/100 ∧
        rl.payback = "2y 11m") := by
  have hgasMem : gasBoilerProfile ∈ defaultCatalogue := by
    simp [defaultCatalogue, gasBoilerProfile]
  have hltashpMem : ltashpProfile ∈ defaultCatalogue := by
    simp [defaultCatalogue, ltashpProfile]
  constructor
  · refine ⟨_, rfl,
      paybackRow noGrant (runModelRow 6400 pr0 0 1 gasBoilerProfile)
        (runModelRow 6400 pr0 0 1 gasBoilerProfile),
      List.mem_map_of_mem _ (List.mem_map_of_mem _ hgasMem),
      paybackRow noGrant (runModelRow 6400 pr0 0 1 gasBoilerProfile)
        (runModelRow 6400 pr0 0 1 ltashpProfile),
      List.mem_map_of_mem _ (List.mem_map_of_mem _ hltashpMem),
      rfl, rfl, ?_, ?_, ?_, ?_, ?_, ?_, ?_⟩ <;>
      norm_num [abs_lt, paybackRow, runModelRow, gasBoilerProfile,
        ltashpProfile, pr0, noGrant, grantAmountFor, pb,
        format_payback_years, pytrunc, pyround, max_def]
    all_goals decide
  · refine ⟨_, rfl,
      paybackRow grant7500 (runModelRow 6400 pr0 0 1 gasBoilerProfile)
        (runModelRow 6400 pr0 0 1 ltashpProfile),
      List.mem_map_of_mem _ (List.mem_map_of_mem _ hltashpMem),
      rfl, ?_, ?_, ?_, ?_⟩ <;>
      norm_num [abs_lt, paybackRow, runModelRow, gasBoilerProfile,
        ltashpProfile, pr0, grant7500, grantAmountFor, pb,
        format_payback_years, pytrunc, pyround, max_def]
    all_goals decide
